import Mathlib

/-
  Verification development for the project_document_assistant backend.

  Shallow embedding of the parts of the code base the claims speak about:
  - core/session.py           (SessionStateManager)
  - core/file_service.py      (FileService)
  - database/document_service.py (DocumentQueryService)
  - my_mcp_tools/mcp_tools.py (diff_project_file and _update_session_manager)
  - sse_proxy/sse2websocket1.py (OpenAIWebSocketProxy._handle_stream)

  Conventions:
  - Python float timestamps are modelled as rationals.
  - Python dicts are modelled as ordered association lists; insertion of a
    fresh key appends, updating an existing key replaces in place, matching
    CPython dict ordering.  Keys built through dictSet are unique, so
    dictPop (which drops every pair with the key) agrees with dict.pop.
  - uuid tokens and the current time are passed to the embedded functions as
    explicit parameters, since the source draws them from uuid4/time.time().
  - Logging calls and WebSocket push notifications of the session manager are
    side channels the claims do not mention and are omitted.
-/

namespace PDA

/-! ## Python dict as an ordered association list -/

def dictGet {α : Type} {κ : Type} [BEq κ] (l : List (κ × α)) (k : κ) : Option α :=
  (l.find? (fun p => p.1 == k)).map (fun p => p.2)

def dictSet {α : Type} {κ : Type} [BEq κ] : List (κ × α) → κ → α → List (κ × α)
  | [], k, v => [(k, v)]
  | (k0, v0) :: rest, k, v =>
      if k0 == k then (k, v) :: rest else (k0, v0) :: dictSet rest k v

def dictPop {α : Type} {κ : Type} [BEq κ] (l : List (κ × α)) (k : κ) : List (κ × α) :=
  l.filter (fun p => !(p.1 == k))

/-! ## Small path/string helpers shared by the embeddings.

All string manipulation is routed through the character list of the string so
that every definition reduces inside the kernel (the iterator-based String
library functions do not). -/

/-- Splitting a character list on a separator character; mirrors
str.split(sep) / String.splitOn for a one-character separator. -/
def splitOnC (sep : Char) : List Char → List (List Char)
  | [] => [[]]
  | c :: rest =>
      match splitOnC sep rest with
      | [] => [[]]
      | h :: t => if c == sep then [] :: h :: t else (c :: h) :: t

/-- String split on a single-character separator. -/
def strSplitOn (s : String) (sep : Char) : List String :=
  (splitOnC sep s.data).map String.mk

/-- Membership of a character in a string. -/
def strContains (s : String) (c : Char) : Bool :=
  s.data.contains c

/-- ASCII-lowercasing of a string. -/
def strToLower (s : String) : String :=
  String.mk (s.data.map Char.toLower)

/-- First n characters of a string (str slicing s[:n]). -/
def strTake (s : String) (n : Nat) : String :=
  String.mk (s.data.take n)

/-- Dropping the first n characters of a string. -/
def strDrop (s : String) (n : Nat) : String :=
  String.mk (s.data.drop n)

/-- Character length of a string. -/
def strLength (s : String) : Nat :=
  s.data.length

/-- Whether s starts with pre. -/
def strStartsWith (s pre : String) : Bool :=
  List.isPrefixOf pre.data s.data

/-- Interleaving a separator between strings (sep.join(...)). -/
def strIntercalate (sep : String) : List String → String
  | [] => ""
  | [x] => x
  | x :: y :: rest => x ++ sep ++ strIntercalate sep (y :: rest)

/-- Stable insertion into a sorted list, for the model of sorted(...). -/
def insertSorted {α : Type} (le : α → α → Bool) (x : α) : List α → List α
  | [] => [x]
  | y :: ys => if le x y then x :: y :: ys else y :: insertSorted le x ys

/-- Stable insertion sort, the model of Python sorted(...). -/
def insertionSort {α : Type} (le : α → α → Bool) (l : List α) : List α :=
  l.foldr (insertSorted le) []

/-- Lexicographic comparison of character lists by code point. -/
def charsLe : List Char → List Char → Bool
  | [], _ => true
  | _ :: _, [] => false
  | a :: as, b :: bs =>
      if a.toNat < b.toNat then true
      else if b.toNat < a.toNat then false
      else charsLe as bs

/-- Lexicographic string order used when sorting sheet names. -/
def strLe (a b : String) : Bool :=
  charsLe a.data b.data

/-- Model of os.path.basename on forward-slash paths. -/
def basename (p : String) : String :=
  ((strSplitOn p '/').getLast?).getD p

/-- Model of os.path.join root rel for a relative rel. -/
def osJoin (root rel : String) : String :=
  root ++ "/" ++ rel

/-- Model of pathlib's Path(p).suffix: the final extension of the last
component, dot included, empty for dotless names and for pure dotfiles. -/
def pathSuffix (p : String) : String :=
  let name := basename p
  match strSplitOn name '.' with
  | [] => ""
  | [_] => ""
  | first :: rest =>
      if first = "" && rest.length == 1 then ""
      else "." ++ (rest.getLast?).getD ""

/-- Model of str.splitlines for newline-separated text. -/
def splitLines (s : String) : List String :=
  if s = "" then []
  else
    let parts := strSplitOn s '\n'
    if parts.getLast? = some "" then parts.dropLast else parts

/-! ## Configured root directories (config.settings), kept abstract as fixed
absolute paths; only their distinctness and shape matter to the claims. -/

def projectsRootDir : String := "/data/projects"
def specRootDir : String := "/data/specs"
def managementRootDir : String := "/data/management"

/-! ## core/data_model.py -/

/-- DocType enum from core/data_model.py. -/
inductive DocType where
  | STANDARD
  | MANAGEMENT
  | PROJECT
deriving DecidableEq, Repr

/-! ## core/session.py : data model -/

/-- FileEntry dataclass (token-bearing opened-file record). -/
structure FileEntry where
  expireAt : ℚ
  openedByLlm : Bool
  openedByUser : Bool
  docType : DocType
  filePath : String
  token : String
deriving DecidableEq, Repr

/-- DirEntry dataclass (token-bearing working-directory record). -/
structure DirEntry where
  directory : String
  expireAt : ℚ
  directoryToken : String
  files : List FileEntry
deriving DecidableEq, Repr

/-- UserSessionData dataclass.  The websocket handle is reduced to its
connected flag, and the derived *_str display fields as well as the
editing_file record (not referenced by any claim) are omitted. -/
structure UserSessionData where
  username : String
  sessionId : String
  ipAddress : String
  loginTime : ℚ
  lastActivityTime : ℚ
  isWebsocketConnected : Bool := false
  workingDirectory : Option DirEntry := none
  workingFiles : List FileEntry := []
deriving DecidableEq, Repr

/-- SessionStateManager state: the username-keyed session dict plus the
configured overall inactivity timeout. -/
structure SessionStateManager where
  userSessions : List (String × UserSessionData)
  inactivityTimeout : ℚ
deriving DecidableEq, Repr

/-! ## core/session.py : login and logout -/

/-- The fresh UserSessionData built by attempt_login (both timestamps set to
the current time, dataclass defaults elsewhere). -/
def freshSession (username sessionId ipAddress : String) (now : ℚ) : UserSessionData :=
  { username := username
    sessionId := sessionId
    ipAddress := ipAddress
    loginTime := now
    lastActivityTime := now }

/-- attempt_login: reject when an existing session for the username has
now - last_activity_time < inactivity_timeout, otherwise install a fresh
session (replacing any stale one) and accept. -/
def attemptLogin (mgr : SessionStateManager) (username ipAddress newSessionId : String)
    (now : ℚ) : Bool × SessionStateManager :=
  match dictGet mgr.userSessions username with
  | some existing =>
      if now - existing.lastActivityTime < mgr.inactivityTimeout then
        (false, mgr)
      else
        (true, { mgr with
          userSessions :=
            dictSet mgr.userSessions username (freshSession username newSessionId ipAddress now) })
  | none =>
      (true, { mgr with
        userSessions :=
          dictSet mgr.userSessions username (freshSession username newSessionId ipAddress now) })

/-- logout_user: pop the username from the session dict (the WebSocket close
it also attempts is a side channel outside this model). -/
def logoutUser (mgr : SessionStateManager) (username : String) : SessionStateManager :=
  { mgr with userSessions := dictPop mgr.userSessions username }

/-! ## core/session.py : token resolution -/

/-- The dict returned by get_downloadable_file_info. -/
structure DownloadableFileInfo where
  token : String
  path : String
  filename : String
  absolutePath : String
  expiresAt : ℚ
deriving DecidableEq, Repr

/-- The generator-with-next scan used on a file-entry list. -/
def findTokenEntry (files : List FileEntry) (tokenToFind : String) : Option FileEntry :=
  files.find? (fun e => e.token == tokenToFind)

/-- Resolution of a working_files hit: project entries resolve against the
projects root, standard entries against the spec root, any other doc_type
makes the whole function return None (the else branch logs and returns). -/
def resolveWorkingFileEntry (e : FileEntry) : Option DownloadableFileInfo :=
  match e.docType with
  | DocType.PROJECT =>
      some { token := e.token, path := e.filePath, filename := basename e.filePath
             absolutePath := osJoin projectsRootDir e.filePath, expiresAt := e.expireAt }
  | DocType.STANDARD =>
      some { token := e.token, path := e.filePath, filename := basename e.filePath
             absolutePath := osJoin specRootDir e.filePath, expiresAt := e.expireAt }
  | DocType.MANAGEMENT => none

/-- One user's slice of the scan.  A some result means the Python function
executes a return statement while visiting this user (possibly returning
None for an invalid doc_type); none means the loop moves on. -/
def lookupUserDownloadInfo (ud : UserSessionData) (tok : String) :
    Option (Option DownloadableFileInfo) :=
  match findTokenEntry ud.workingFiles tok with
  | some e => some (resolveWorkingFileEntry e)
  | none =>
      match ud.workingDirectory with
      | some d =>
          match findTokenEntry d.files tok with
          | some e =>
              some (some { token := e.token, path := e.filePath
                           filename := basename e.filePath
                           absolutePath := osJoin projectsRootDir e.filePath
                           expiresAt := e.expireAt })
          | none => none
      | none => none

/-- get_downloadable_file_info: scan the sessions in dict order; for each,
working_files first, then working_directory.files.  Note the source never
compares expire_at with the current time. -/
def getDownloadableFileInfo : List (String × UserSessionData) → String →
    Option DownloadableFileInfo
  | [], _ => none
  | (_, ud) :: rest, tok =>
      match lookupUserDownloadInfo ud tok with
      | some r => r
      | none => getDownloadableFileInfo rest tok

/-! ## core/session.py : opened-file registration (post-refactor signature) -/

/-- update_opened_file as defined in core/session.py: four parameters after
self; the token and expiry are produced internally (modelled as the token/now
arguments, with expires = now + DOWNLOAD_LINK_VALIDITY_SECONDS). -/
def updateOpenedFile (mgr : SessionStateManager) (user : String)
    (relativeFilePath : String) (llmOpened : Bool) (documentType : DocType)
    (token : String) (now validity : ℚ) : Option FileEntry × SessionStateManager :=
  match dictGet mgr.userSessions user with
  | none => (none, mgr)
  | some ud =>
      let entry : FileEntry :=
        { filePath := relativeFilePath
          token := token
          openedByLlm := llmOpened
          openedByUser := true
          expireAt := now + validity
          docType := documentType }
      let sessions2 :=
        dictSet mgr.userSessions user
          ({ ud with workingFiles := ud.workingFiles ++ [entry] })
      (some entry, { mgr with userSessions := sessions2 })

/-! ## core/file_service.py : FileService

Paths are modelled as lists of components plus an absolute flag; the
filesystem is modelled by the sets of existing files and directories (content
is not tracked; the claims are about reachability and mutation, not bytes).
The error kind carried by _get_safe_path's ValueError (absolute input or
escape from the root) is PathEscape in the spec's vocabulary. -/

/-- Error kinds raised by FileService operations. -/
inductive FsError where
  | pathEscape
  | notFound
deriving DecidableEq, Repr

/-- A pathlib.Path argument: absolute flag plus raw components. -/
structure PurePath where
  absolute : Bool
  comps : List String
deriving DecidableEq, Repr

/-- One step of Path.resolve() component normalisation. -/
def resolveStep (acc : List String) (c : String) : List String :=
  if c = "." || c = "" then acc
  else if c = ".." then acc.dropLast
  else acc ++ [c]

/-- Path.resolve() on components interpreted from the filesystem root.
Symbolic links are out of scope of the model. -/
def resolvePath (comps : List String) : List String :=
  comps.foldl resolveStep []

/-- The filesystem state: existing files and directories, both named by
resolved absolute component paths. -/
structure FsState where
  files : List (List String)
  dirs : List (List String)
deriving DecidableEq, Repr

/-- _get_safe_path: reject absolute inputs, resolve root / rel, and require
root ∈ resolved.parents or resolved = root, i.e. the resolved root is a
prefix of the resolved path. -/
def getSafePath (rootComps : List String) (rel : PurePath) :
    Except FsError (List String) :=
  if rel.absolute then Except.error FsError.pathEscape
  else
    let safe := resolvePath (rootComps ++ rel.comps)
    if List.isPrefixOf rootComps safe then Except.ok safe
    else Except.error FsError.pathEscape

/-- Decidable characterisation of the inputs _get_safe_path rejects. -/
def pathEscapesB (rootComps : List String) (rel : PurePath) : Bool :=
  rel.absolute || !(List.isPrefixOf rootComps (resolvePath (rootComps ++ rel.comps)))

/-- save_content_async: resolve safely, create the parent directory, write a
tempfile (in a temp dir outside the root) and move it into place.  Returns
the final path.  Nothing is touched when the safe-path check fails. -/
def saveContentAsync (fs : FsState) (rootComps : List String) (rel : PurePath) :
    Except FsError (List String) × FsState :=
  match getSafePath rootComps rel with
  | Except.error e => (Except.error e, fs)
  | Except.ok p =>
      (Except.ok p, { fs with dirs := p.dropLast :: fs.dirs, files := p :: fs.files })

/-- remove_directory_async: recursive delete, idempotent on a missing dir. -/
def removeDirectoryAsync (fs : FsState) (rootComps : List String) (rel : PurePath) :
    Except FsError Unit × FsState :=
  match getSafePath rootComps rel with
  | Except.error e => (Except.error e, fs)
  | Except.ok p =>
      if fs.dirs.contains p then
        (Except.ok (),
          { files := fs.files.filter (fun q => !(List.isPrefixOf p q))
            dirs := fs.dirs.filter (fun q => !(List.isPrefixOf p q)) })
      else (Except.ok (), fs)

/-- create_directory_async: mkdir -p when the path does not exist yet. -/
def createDirectoryAsync (fs : FsState) (rootComps : List String) (rel : PurePath) :
    Except FsError Unit × FsState :=
  match getSafePath rootComps rel with
  | Except.error e => (Except.error e, fs)
  | Except.ok p =>
      if fs.dirs.contains p || fs.files.contains p then (Except.ok (), fs)
      else (Except.ok (), { fs with dirs := p :: fs.dirs })

/-- create_placeholder_file_async: ensure the directory, touch the file if
absent. -/
def createPlaceholderFileAsync (fs : FsState) (rootComps : List String)
    (relDir : PurePath) (filename : String) : Except FsError Unit × FsState :=
  match getSafePath rootComps relDir with
  | Except.error e => (Except.error e, fs)
  | Except.ok p =>
      let fs1 := if fs.dirs.contains p then fs else { fs with dirs := p :: fs.dirs }
      let placeholder := p ++ [filename]
      if fs1.files.contains placeholder then (Except.ok (), fs1)
      else (Except.ok (), { fs1 with files := placeholder :: fs1.files })

/-- read_file_bytes_sync: resolve safely then require an existing file; the
returned bytes are not modelled, only success. -/
def readFileBytesSync (fs : FsState) (rootComps : List String) (rel : PurePath) :
    Except FsError Unit × FsState :=
  match getSafePath rootComps rel with
  | Except.error e => (Except.error e, fs)
  | Except.ok p =>
      if fs.files.contains p then (Except.ok (), fs)
      else (Except.error FsError.notFound, fs)

/-- file_exists_async: the ValueError from _get_safe_path is caught and
mapped to False instead of propagating. -/
def fileExistsAsync (fs : FsState) (rootComps : List String) (rel : PurePath) : Bool :=
  match getSafePath rootComps rel with
  | Except.error _ => false
  | Except.ok p => fs.files.contains p

/-- directory_exists_async: same catch-and-return-False shape on dirs. -/
def directoryExistsAsync (fs : FsState) (rootComps : List String) (rel : PurePath) : Bool :=
  match getSafePath rootComps rel with
  | Except.error _ => false
  | Except.ok p => fs.dirs.contains p

/-! ## database/document_service.py : DocumentQueryService

The sqlite table indexed_files is modelled as a list of rows.  Its schema
declares PRIMARY KEY (relative_path) alone, so INSERT OR REPLACE keys on the
relative path only; this is reproduced by upsertRow.  The always-None legacy
columns (actual_name, description, version_date, create_user, modify_log,
raw_content) are omitted. -/

/-- DocumentType literal from document_service.py:
项目文件 / 规范文件 / 管理文件 / 其他. -/
inductive DocumentType where
  | projectDoc
  | specDoc
  | managementDoc
  | otherDoc
deriving DecidableEq, Repr

/-- The document_type column text for each DocumentType. -/
def docTypeText : DocumentType → String
  | DocumentType.projectDoc => "项目文件"
  | DocumentType.specDoc => "规范文件"
  | DocumentType.managementDoc => "管理文件"
  | DocumentType.otherDoc => "其他"

/-- ProjectFolderType str enum: 收口 / 送审 / 过程记录. -/
inductive ProjectFolderType where
  | FINAL
  | FOR_REVIEW
  | RECORDS
deriving DecidableEq, Repr

/-- The serialized value of a ProjectFolderType. -/
def folderTypeText : ProjectFolderType → String
  | ProjectFolderType.FINAL => "收口"
  | ProjectFolderType.FOR_REVIEW => "送审"
  | ProjectFolderType.RECORDS => "过程记录"

/-- Parsing a path component as a ProjectFolderType (the try/except around
the enum constructor). -/
def parseFolderType (s : String) : Option ProjectFolderType :=
  if s = "收口" then some ProjectFolderType.FINAL
  else if s = "送审" then some ProjectFolderType.FOR_REVIEW
  else if s = "过程记录" then some ProjectFolderType.RECORDS
  else none

/-- ProjectMetadata pydantic model. -/
structure ProjectMetadata where
  year : Option String := none
  projectName : Option String := none
  status : Option ProjectFolderType := none
  category : Option String := none
  subCategory : Option String := none
deriving DecidableEq, Repr

/-- ManagementMetadata pydantic model. -/
structure ManagementMetadata where
  category : Option String := none
  subCategory : Option String := none
deriving DecidableEq, Repr

/-- SpecMetadata pydantic model. -/
structure SpecMetadata where
  category : Option String := none
  docName : Option String := none
deriving DecidableEq, Repr

/-- The tagged metadata variant stored with a row. -/
inductive Metadata where
  | project (m : ProjectMetadata)
  | management (m : ManagementMetadata)
  | spec (m : SpecMetadata)
  | unknown
deriving DecidableEq, Repr

/-- The searchable-document extension set used when extracting doc_name for
the spec tree (note: distinct from the indexing filter below). -/
def searchableExtensions : List String :=
  [".pdf", ".md", ".docx", ".txt", ".ofd", ".ceb"]

/-- The indexing filter set for the spec tree, exactly as written in
_get_file_info.  The final entry is the literal string png without a leading
dot, as in the source. -/
def specExtensions : List String :=
  [".pdf", ".ofd", ".txt", ".ceb", ".md", ".docx", ".jpeg", ".jpg", "png"]

/-- _extract_file_metadata on the components of the relative path. -/
def extractFileMetadata (relParts : List String) (suffixLower : String)
    (dt : DocumentType) : Metadata :=
  if relParts.isEmpty then Metadata.unknown
  else
    match dt with
    | DocumentType.projectDoc =>
        let year := relParts.get? 0
        let projectName := relParts.get? 1
        let status := (relParts.get? 2).bind parseFolderType
        let category :=
          if status = some ProjectFolderType.RECORDS then relParts.get? 3 else none
        let subCategory :=
          if status = some ProjectFolderType.RECORDS then relParts.get? 4 else none
        Metadata.project
          { year := year, projectName := projectName, status := status
            category := category, subCategory := subCategory }
    | DocumentType.specDoc =>
        let category := relParts.get? 0
        let docName :=
          if searchableExtensions.contains suffixLower && relParts.length > 1 then
            relParts.get? 1
          else none
        Metadata.spec { category := category, docName := docName }
    | DocumentType.managementDoc =>
        Metadata.management
          { category := relParts.get? 0, subCategory := relParts.get? 1 }
    | DocumentType.otherDoc => Metadata.unknown

/-- A row of the indexed_files table. -/
structure IndexedRow where
  relativePath : String
  fileName : String
  ext : String
  size : Nat
  modifiedTime : ℚ
  md5Hash : String
  lastScanned : ℚ
  documentType : DocumentType
  metadata : Metadata
deriving DecidableEq, Repr

/-- A file on disk, as seen through stat and calculate_md5; an empty md5
models a hash failure. -/
structure DiskFile where
  absPath : String
  isFile : Bool
  size : Nat
  mtime : ℚ
  md5 : String
deriving DecidableEq, Repr

/-- The configured root of each document tree (self.root_dir dict); lookup of
the 其他 type raises KeyError, modelled by none. -/
def rootDirOf : DocumentType → Option String
  | DocumentType.projectDoc => some projectsRootDir
  | DocumentType.specDoc => some specRootDir
  | DocumentType.managementDoc => some managementRootDir
  | DocumentType.otherDoc => none

/-- Path.relative_to: strip the root prefix, none when the path does not live
under the root (relative_to raises, caught by the try/except). -/
def relativeToRoot (absPath root : String) : Option String :=
  if strStartsWith absPath (root ++ "/") then
    some (strDrop absPath (strLength root + 1))
  else none

/-- Dropping the leading dot of a suffix, as suffix.lstrip with a dot. -/
def stripLeadingDot (s : String) : String :=
  if strStartsWith s "." then strDrop s 1 else s

/-- _get_file_info: None for non-files; for the spec tree, None unless the
lowercased suffix is listed in specExtensions; otherwise build the row from
stat data and path-derived metadata. -/
def getFileInfo (f : DiskFile) (dt : DocumentType) (now : ℚ) : Option IndexedRow :=
  if !f.isFile then none
  else if dt = DocumentType.specDoc
          && !(specExtensions.contains (strToLower (pathSuffix f.absPath))) then none
  else
    match rootDirOf dt with
    | none => none
    | some root =>
        match relativeToRoot f.absPath root with
        | none => none
        | some rel =>
            if f.md5 = "" then none
            else
              some
                { relativePath := rel
                  fileName := basename f.absPath
                  ext := strToLower (stripLeadingDot (pathSuffix f.absPath))
                  size := f.size
                  modifiedTime := f.mtime
                  md5Hash := f.md5
                  lastScanned := now
                  documentType := dt
                  metadata :=
                    extractFileMetadata (strSplitOn rel '/')
                      (strToLower (pathSuffix f.absPath)) dt }

/-- INSERT OR REPLACE INTO indexed_files under PRIMARY KEY (relative_path):
any existing row with the same relative path is replaced, regardless of its
document_type. -/
def upsertRow (tbl : List IndexedRow) (r : IndexedRow) : List IndexedRow :=
  tbl.filter (fun q => !(q.relativePath == r.relativePath)) ++ [r]

/-- upsert_document: skip when _get_file_info yields nothing, otherwise
write the row. -/
def upsertDocument (tbl : List IndexedRow) (f : DiskFile) (dt : DocumentType)
    (now : ℚ) : List IndexedRow :=
  match getFileInfo f dt now with
  | none => tbl
  | some r => upsertRow tbl r

/-- Number of rows holding a given relative path. -/
def countKey (tbl : List IndexedRow) (k : String) : Nat :=
  (tbl.filter (fun r => r.relativePath == k)).length

/-! ### find_documents -/

/-- The recognised filter keys: the metadata keys routed through
json_extract, and plain columns. -/
inductive QueryKey where
  | projectName
  | year
  | projectStatus
  | category
  | subCategory
  | docName
  | relativePath
  | fileName
  | ext
  | documentType
  | md5Hash
deriving DecidableEq, Repr

/-- Field extraction for a filter key.  Metadata keys read the serialized
metadata JSON: absent keys give SQL NULL (none).  The metadata JSON spells
the project status field status, while the query builder extracts
project_status, so that key never matches. -/
def getField (r : IndexedRow) : QueryKey → Option String
  | QueryKey.projectName =>
      match r.metadata with
      | Metadata.project m => m.projectName
      | _ => none
  | QueryKey.year =>
      match r.metadata with
      | Metadata.project m => m.year
      | _ => none
  | QueryKey.projectStatus => none
  | QueryKey.category =>
      match r.metadata with
      | Metadata.project m => m.category
      | Metadata.management m => m.category
      | Metadata.spec m => m.category
      | Metadata.unknown => none
  | QueryKey.subCategory =>
      match r.metadata with
      | Metadata.project m => m.subCategory
      | Metadata.management m => m.subCategory
      | _ => none
  | QueryKey.docName =>
      match r.metadata with
      | Metadata.spec m => m.docName
      | _ => none
  | QueryKey.relativePath => some r.relativePath
  | QueryKey.fileName => some r.fileName
  | QueryKey.ext => some r.ext
  | QueryKey.documentType => some (docTypeText r.documentType)
  | QueryKey.md5Hash => some r.md5Hash

/-- SQL LIKE pattern matching over character lists: percent matches any run,
underscore one character, letters case-insensitively (SQLite ASCII
semantics). -/
def likeChars : List Char → List Char → Bool
  | [], [] => true
  | [], _ :: _ => false
  | '%' :: ps, t =>
      likeChars ps t ||
        (match t with
         | [] => false
         | _ :: ts => likeChars ('%' :: ps) ts)
  | '_' :: ps, t =>
      (match t with
       | [] => false
       | _ :: ts => likeChars ps ts)
  | p :: ps, t =>
      (match t with
       | [] => false
       | c :: ts => p.toLower == c.toLower && likeChars ps ts)
termination_by ps t => (t.length, ps.length)

/-- Whether a row satisfies one key/value filter; SQL comparisons against
NULL never hold. -/
def rowMatches (r : IndexedRow) (k : QueryKey) (v : String) : Bool :=
  match getField r k with
  | none => false
  | some s => if strContains v '%' then likeChars v.data s.data else s == v

/-- find_documents: drop None-valued kwargs; with no remaining condition
return the empty list (the guarded branch), else filter by the conjunction
of the conditions. -/
def findDocuments (tbl : List IndexedRow) (filters : List (QueryKey × Option String)) :
    List IndexedRow :=
  let parts := filters.filterMap (fun kv => kv.2.map (fun v => (kv.1, v)))
  if parts.isEmpty then []
  else tbl.filter (fun r => parts.all (fun kv => rowMatches r kv.1 kv.2))

/-! ## sse_proxy/sse2websocket1.py : OpenAIWebSocketProxy._handle_stream

The upstream chat-completions endpoint and the MCP tool transport are
external services, modelled as oracle functions inside StreamEnv.  The
events pushed over the WebSocket are collected in a list.  The ghost field
upstreamCallDepths is instrumentation only: it records the depth argument in
force at each chat.completions.create call, so that the recursion bound can
be stated; the source has no such variable. -/

/-- One assembled tool call (id, function name, accumulated arguments). -/
structure ToolCallAcc where
  id : String
  name : String
  arguments : String
deriving DecidableEq, Repr

/-- One tool_calls delta inside a streamed chunk. -/
structure TCDelta where
  index : Nat
  id : Option String
  name : Option String
  arguments : Option String
deriving DecidableEq, Repr

/-- One streamed chunk (choices[0].delta plus finish_reason). -/
structure StreamChunk where
  content : Option String
  toolCalls : List TCDelta
  finishReason : Option String
deriving DecidableEq, Repr

/-- Chat history messages. -/
inductive ChatMsg where
  | system (content : String)
  | user (content : String)
  | assistant (content : String) (toolCalls : List ToolCallAcc)
  | tool (toolCallId : String) (content : String)
deriving DecidableEq, Repr

/-- Events sent to the client WebSocket (inside chat_event_batch frames). -/
inductive ChatEvent where
  | agentMessage (answer : String)
  | agentThought (observation : String)
  | errorEvent (content : String)
  | messageEnd
deriving DecidableEq, Repr

/-- Mutable proxy state: history, the events pushed so far, the stop flag
(with WebSocket disconnection folded in), the synthetic tool-call id
counter, and the ghost record of upstream call depths. -/
structure ProxyState where
  history : List ChatMsg
  events : List ChatEvent
  stopEvent : Bool
  toolCallId : Nat
  upstreamCallDepths : List Nat
deriving DecidableEq, Repr

/-- External behaviour: the upstream completion (error models a raised
APIError, carrying the exception class name) and the MCP tool execution
result string. -/
structure StreamEnv where
  upstream : List ChatMsg → Except String (List StreamChunk)
  execTool : ToolCallAcc → String

/-- Content of a tool message, for the observation line. -/
def toolMsgContent : ChatMsg → String
  | ChatMsg.tool _ c => c
  | _ => ""

/-- _handle_stream_chunk on one tool-call delta: setdefault the index, then
overwrite the id (using the synthetic counter when the delta carries none),
replace the name and append the arguments when present. -/
def mergeTCDelta (counter : Nat) (acc : List (Nat × ToolCallAcc)) (d : TCDelta) :
    Nat × List (Nat × ToolCallAcc) :=
  let cur := (dictGet acc d.index).getD { id := "", name := "", arguments := "" }
  let (counter2, withId) :=
    match d.id with
    | some i => (counter, { cur with id := i })
    | none => (counter + 1, { cur with id := toString (counter + 1) })
  let withName :=
    match d.name with
    | some n => { withId with name := n }
    | none => withId
  let withArgs :=
    match d.arguments with
    | some a => { withName with arguments := withName.arguments ++ a }
    | none => withName
  (counter2, dictSet acc d.index withArgs)

/-- Folding _handle_stream_chunk over the deltas of one chunk. -/
def mergeTCDeltas (counter : Nat) (acc : List (Nat × ToolCallAcc)) :
    List TCDelta → Nat × List (Nat × ToolCallAcc)
  | [] => (counter, acc)
  | d :: rest =>
      let (c2, a2) := mergeTCDelta counter acc d
      mergeTCDeltas c2 a2 rest

/-- The largest index in the accumulator. -/
def maxIndex (acc : List (Nat × ToolCallAcc)) : Nat :=
  acc.foldl (fun m p => max m p.1) 0

/-- Reading the accumulator in sorted index order. -/
def assembleCalls (acc : List (Nat × ToolCallAcc)) : List ToolCallAcc :=
  (List.range (maxIndex acc + 1)).filterMap (fun i => dictGet acc i)

/-- _execute_tool_calls: skip calls missing a name or id, otherwise run the
tool through the transport oracle and wrap the output as a tool message. -/
def executeToolCalls (env : StreamEnv) (calls : List ToolCallAcc) : List ChatMsg :=
  calls.filterMap (fun c =>
    if c.name = "" || c.id = "" then none
    else some (ChatMsg.tool c.id (env.execTool c)))

/-- The agent_thought observation text. -/
def thoughtObservation (toolMsgs : List ChatMsg) : String :=
  strIntercalate "\n" (toolMsgs.map (fun m => "工具结果: " ++ toolMsgContent m))

/-- How the chunk loop was left. -/
inductive LoopExit where
  | stopSignal
  | toolCallsFinish
  | stopFinish
  | exhausted
deriving DecidableEq, Repr

/-- The async-for over stream chunks: check the stop flag, emit an
agent_message event per content delta, merge tool-call deltas, and react to
finish_reason (tool_calls hands control to the recursion, stop appends the
assistant message and breaks). -/
def processChunks (st : ProxyState) (fullContent : String)
    (acc : List (Nat × ToolCallAcc)) :
    List StreamChunk → ProxyState × String × List (Nat × ToolCallAcc) × LoopExit
  | [] => (st, fullContent, acc, LoopExit.exhausted)
  | ch :: rest =>
      if st.stopEvent then (st, fullContent, acc, LoopExit.stopSignal)
      else
        let (st1, full1) :=
          match ch.content with
          | some c =>
              ({ st with events := st.events ++ [ChatEvent.agentMessage c] },
                fullContent ++ c)
          | none => (st, fullContent)
        let (counter2, acc2) := mergeTCDeltas st1.toolCallId acc ch.toolCalls
        let st2 := { st1 with toolCallId := counter2 }
        match ch.finishReason with
        | some r =>
            if r = "tool_calls" then (st2, full1, acc2, LoopExit.toolCallsFinish)
            else if r = "stop" then
              ({ st2 with history := st2.history ++ [ChatMsg.assistant full1 []] },
                full1, acc2, LoopExit.stopFinish)
            else processChunks st2 full1 acc2 rest
        | none => processChunks st2 full1 acc2 rest

/-- _handle_stream.  When depth exceeds max_depth the function logs and
returns the error string to its caller without consulting the upstream and
without pushing any event.  Otherwise it opens a completion (recorded in the
ghost trace), forwards chunks, and on a tool_calls finish appends the
assistant and tool messages, pushes one agent_thought event and recurses at
depth + 1 on the updated history. -/
def handleStream (env : StreamEnv) (st : ProxyState) (messages : List ChatMsg)
    (depth maxDepth : Nat) : ProxyState × Option String :=
  if h : maxDepth < depth then
    (st, some "[系统错误] 工具调用嵌套太深")
  else
    let st0 := { st with upstreamCallDepths := st.upstreamCallDepths ++ [depth] }
    match env.upstream messages with
    | Except.error e =>
        ({ st0 with events := st0.events ++ [ChatEvent.errorEvent ("上游服务错误: " ++ e)] },
          none)
    | Except.ok chunks =>
        match processChunks st0 "" [] chunks with
        | (st1, _, _, LoopExit.stopSignal) => (st1, none)
        | (st1, full, _, LoopExit.stopFinish) => (st1, some full)
        | (st1, full, _, LoopExit.exhausted) => (st1, some full)
        | (st1, full, acc, LoopExit.toolCallsFinish) =>
            let calls := assembleCalls acc
            let st2 := { st1 with history := st1.history ++ [ChatMsg.assistant full calls] }
            let toolMsgs := executeToolCalls env calls
            let st3 := { st2 with history := st2.history ++ toolMsgs }
            let st4 := { st3 with events := st3.events ++ [ChatEvent.agentThought (thoughtObservation toolMsgs)] }
            handleStream env st4 st4.history (depth + 1) maxDepth
termination_by maxDepth + 1 - depth
decreasing_by
  simp_wf
  omega

/-! ## my_mcp_tools/mcp_tools.py : _update_session_manager and diff_project_file

The tool layer still calls the session manager with the pre-refactor calling
convention.  To keep the call boundary faithful, the invocation of
update_opened_file is modelled as a dynamic call carrying an explicit
positional-argument list; binding it against the four declared parameters of
core/session.py raises TypeError when the arity differs, exactly as CPython
does.  The file parsers (python-docx, pdf, openpyxl) and difflib are
external libraries, modelled as oracle functions in DiffEnv. -/

/-- A dynamically typed Python argument value. -/
inductive PyVal where
  | vStr (s : String)
  | vPath (p : String)
  | vBool (b : Bool)
  | vDocType (d : DocType)
deriving DecidableEq, Repr

/-- Exceptions surfaced from a dynamic call. -/
inductive PyError where
  | typeError
deriving DecidableEq, Repr

/-- Rendering of the exception for the except-handler message. -/
def pyErrText : PyError → String
  | PyError.typeError => "TypeError"

/-- Dynamic coercions used once an argument list has been bound. -/
def pyValStr : PyVal → String
  | PyVal.vStr s => s
  | PyVal.vPath p => p
  | PyVal.vBool b => if b then "True" else "False"
  | PyVal.vDocType _ => ""

def pyValBool : PyVal → Bool
  | PyVal.vBool b => b
  | PyVal.vStr s => !(s == "")
  | PyVal.vPath p => !(p == "")
  | PyVal.vDocType _ => true

def pyValDocType : PyVal → Option DocType
  | PyVal.vDocType d => some d
  | _ => none

/-- A dynamic call of SessionStateManager.update_opened_file.  The method
declares exactly four parameters after self (user, relative_file_path,
llm_opened, document_type); any other positional arity raises TypeError
before the body runs. -/
def callUpdateOpenedFile (mgr : SessionStateManager) (args : List PyVal)
    (token : String) (now validity : ℚ) :
    Except PyError (Option FileEntry × SessionStateManager) :=
  match args with
  | [a, b, c, d] =>
      Except.ok
        (updateOpenedFile mgr (pyValStr a) (pyValStr b) (pyValBool c)
          ((pyValDocType d).getD DocType.PROJECT) token now validity)
  | _ => Except.error PyError.typeError

/-- The per-file loop of _update_session_manager in its dir-empty branch:
for every (token, file_path) pair it calls update_opened_file with the five
positional arguments (user_name, token, file_path, True, doc_type). -/
def updateOpenedFileLoop (mgr : SessionStateManager) (userName : String) :
    List (String × String) → ℚ → ℚ → Except PyError SessionStateManager
  | [], _, _ => Except.ok mgr
  | (token, filePath) :: rest, now, validity =>
      match callUpdateOpenedFile mgr
          [PyVal.vStr userName, PyVal.vStr token, PyVal.vPath filePath,
            PyVal.vBool true, PyVal.vDocType DocType.PROJECT] token now validity with
      | Except.error e => Except.error e
      | Except.ok (_, mgr2) => updateOpenedFileLoop mgr2 userName rest now validity

/-- _update_session_manager with dir left empty: a missing session manager
only logs; otherwise run the registration loop. -/
def updateSessionManagerCall (sm : Option SessionStateManager) (userName : String)
    (filesPath : List (String × String)) (now validity : ℚ) :
    Except PyError (Option SessionStateManager) :=
  match sm with
  | none => Except.ok none
  | some mgr =>
      match updateOpenedFileLoop mgr userName filesPath now validity with
      | Except.error e => Except.error e
      | Except.ok mgr2 => Except.ok (some mgr2)

/-- DiffFileResponse pydantic model. -/
structure DiffFileResponse where
  content : String
  token1 : Option String := none
  token2 : Option String := none
  filePath1 : Option String := none
  downloadUrl1 : Option String := none
  filePath2 : Option String := none
  downloadUrl2 : Option String := none
  hint : String
deriving DecidableEq, Repr

/-- Shorthand for the error-shaped responses of diff_project_file. -/
def mkDiffError (hint : String) : DiffFileResponse :=
  { content := "N/A", hint := hint }

/-- External behaviour consumed by diff_project_file: file existence,
file_parser.parse_file on an absolute path (delimiter empty), difflib's
unified_diff (header lines included), get_xlsx_sheet_names and
parse_xlsx_sheet_content with the configured column selection folded in. -/
structure DiffEnv where
  fileExists : String → Bool
  parseFile : String → String
  unifiedDiff : List String → List String → List String
  sheetNames : String → List String
  parseSheet : String → String → List String

/-- The host address and port baked into download URLs. -/
def hostIpv6 : String := "hostv6"
def serverPortText : String := "8000"

/-- A /download URL as formatted by the tool layer. -/
def downloadUrl (tok rel : String) : String :=
  "http://[" ++ hostIpv6 ++ "]:" ++ serverPortText ++ "/download/" ++ tok ++ "/" ++ rel

/-- _get_file_content for the projects tree. -/
def getFileContent (env : DiffEnv) (rel : String) : String :=
  env.parseFile (osJoin projectsRootDir rel)

/-- Thirty dashes, the separator rule of the headers. -/
def dashes30 : String := String.mk (List.replicate 30 '-')

/-- Rendering of a Python bool inside an f-string. -/
def pyBoolText (b : Bool) : String := if b then "True" else "False"

/-- Either an early return with a finished response, or a successful
comparison that continues into the token-registration tail. -/
inductive DiffStage where
  | early (resp : DiffFileResponse)
  | success (result : String) (successHint : String)
deriving DecidableEq, Repr

/-- Diff header lines are dropped from the reported content. -/
def filterDiffHeaders (diff : List String) : List String :=
  diff.filter (fun l => !(strStartsWith l "--- " || strStartsWith l "+++ "))

/-- Per-sheet comparison text of the all-sheet branch. -/
def sheetCompareText (env : DiffEnv) (absPath1 absPath2 sheetName : String) : String :=
  let header := "Sheet名称: " ++ sheetName ++ "\n" ++ dashes30 ++ "\n"
  let c1 := env.parseSheet absPath1 sheetName
  let c2 := env.parseSheet absPath2 sheetName
  if c1.isEmpty && c2.isEmpty then
    header ++ "Sheet " ++ sheetName ++ ": 无法解析文件1和文件2的此sheet内容，或内容均为空。\n\n"
  else if c1.isEmpty then
    header ++ "Sheet " ++ sheetName ++ ": 无法解析文件1的此sheet内容，或内容为空。\n\n"
  else if c2.isEmpty then
    header ++ "Sheet " ++ sheetName ++ ": 无法解析文件2的此sheet内容，或内容为空。\n\n"
  else
    let diff := env.unifiedDiff c1 c2
    if diff.isEmpty then header ++ "Sheet " ++ sheetName ++ ": 内容一致。\n\n"
    else
      header ++ "Sheet " ++ sheetName ++ ": 差异内容如下:\n" ++
        strIntercalate "\n" (filterDiffHeaders diff) ++ "\n\n"

/-- The 概算表 comparison branch. -/
def diffBudgetBranch (env : DiffEnv) (relFile1 relFile2 sheetName : String)
    (allSheet : Bool) (resultHeader absPath1 absPath2 : String) : DiffStage :=
  if !(pathSuffix absPath1 == ".xlsx") || !(pathSuffix absPath2 == ".xlsx") then
    DiffStage.early (mkDiffError "错误: 文件概算表比较仅支持xlsx格式，请检查文件格式")
  else if allSheet then
    let names1 := (env.sheetNames absPath1).eraseDups
    let names2 := (env.sheetNames absPath2).eraseDups
    let common := insertionSort strLe (names1.filter (fun s => names2.contains s))
    let only1 := insertionSort strLe (names1.filter (fun s => !(names2.contains s)))
    let only2 := insertionSort strLe (names2.filter (fun s => !(names1.contains s)))
    if common.isEmpty && only1.isEmpty && only2.isEmpty then
      DiffStage.early
        (mkDiffError (resultHeader ++ "两个Excel文件均不包含任何sheet页，或无法读取sheet列表。\n"))
    else
      let commonSection :=
        if common.isEmpty then []
        else "--- 共同存在的Sheet比较结果 ---\n" ::
          common.map (fun s => sheetCompareText env absPath1 absPath2 s)
      let only1Section :=
        if only1.isEmpty then []
        else ("--- 仅存在于文件 " ++ basename absPath1 ++ " 的Sheet ---\n") ::
          only1.map (fun s => "- " ++ s ++ "\n") ++ ["\n"]
      let only2Section :=
        if only2.isEmpty then []
        else ("--- 仅存在于文件 " ++ basename absPath2 ++ " 的Sheet ---\n") ::
          only2.map (fun s => "- " ++ s ++ "\n") ++ ["\n"]
      DiffStage.success
        (strIntercalate "" (resultHeader :: (commonSection ++ only1Section ++ only2Section)))
        "请整理差异内容后输出，不要遗漏"
  else if sheetName = "" then
    DiffStage.early
      (mkDiffError "错误: 文件类型 概算表 (Excel) 且 all_sheet=False 时，需要提供 sheet_name 进行比较，请检查调用参数。")
  else
    let header := resultHeader ++ "Sheet名称: " ++ sheetName ++ "\n" ++ dashes30 ++ "\n"
    let c1 := env.parseSheet absPath1 sheetName
    let c2 := env.parseSheet absPath2 sheetName
    if c1.isEmpty || c2.isEmpty then
      DiffStage.early
        (mkDiffError (header ++ "错误: 无法解析" ++ (if c1.isEmpty then relFile1 else relFile2) ++
          "的Sheet " ++ sheetName ++ " 内容，或内容均为空。"))
    else
      let diff := env.unifiedDiff c1 c2
      if diff.isEmpty then
        DiffStage.success (header ++ "无差异")
          ("比较的Sheet " ++ sheetName ++ " 完全一致。")
      else
        DiffStage.success
          (strIntercalate "\n" (header :: filterDiffHeaders diff))
          "请整理差异内容后输出，不要遗漏"

/-- The 报告（说明书）/ 材料清册 text comparison branch. -/
def diffTextBranch (env : DiffEnv) (relFile1 relFile2 : String)
    (resultHeader : String) : DiffStage :=
  let currentFileHeader := resultHeader ++ dashes30 ++ "\n"
  let rawContent1 := getFileContent env relFile1
  let rawContent2 := getFileContent env relFile2
  if strStartsWith rawContent1 "错误:" || strStartsWith rawContent2 "错误:" then
    DiffStage.early
      (mkDiffError
        ("错误:解析文件1 (" ++ relFile1 ++ ") 内容: " ++ strTake rawContent1 50 ++
          "--解析文件2 (" ++ relFile2 ++ ") 内容: " ++ strTake rawContent2 50 ++ "请检查日志"))
  else
    let diff := env.unifiedDiff (splitLines rawContent1) (splitLines rawContent2)
    if diff.isEmpty then
      DiffStage.success (currentFileHeader ++ "无差异")
        ("文本文件 " ++ relFile1 ++ " 和 " ++ relFile2 ++ " 内容一致。")
    else
      DiffStage.success
        (strIntercalate "\n" (resultHeader :: filterDiffHeaders diff))
        "请整理差异内容后输出，不要遗漏"

/-- diff_project_file.  The two uuid tokens the success path draws are the
tok1/tok2 parameters.  The result pairs the returned response with the
session-manager state after the call (app_state.session_manager). -/
def diffProjectFile (env : DiffEnv) (sm : Option SessionStateManager)
    (user relFile1 relFile2 documentType sheetName : String) (allSheet : Bool)
    (tok1 tok2 : String) (now validity : ℚ) :
    DiffFileResponse × Option SessionStateManager :=
  let absPath1 := osJoin projectsRootDir relFile1
  let absPath2 := osJoin projectsRootDir relFile2
  if !(["报告（说明书）", "材料清册", "概算表"].contains documentType) then
    (mkDiffError ("错误: 不支持的文件类型 " ++ documentType ++
      "。支持的类型有 报告（说明书）, 材料清册, 概算表。"), sm)
  else if !(env.fileExists absPath1) || !(env.fileExists absPath2) then
    (mkDiffError ("错误: 文件未找到: " ++ relFile1 ++ ":" ++ pyBoolText (env.fileExists absPath1) ++
      ", " ++ relFile2 ++ ":" ++ pyBoolText (env.fileExists absPath2)), sm)
  else if !([".xlsx", ".pdf", ".docx"].contains (strToLower (pathSuffix absPath1))) ||
          !([".xlsx", ".pdf", ".docx"].contains (strToLower (pathSuffix absPath2))) then
    (mkDiffError ("错误: " ++ relFile1 ++ "与" ++ relFile2 ++
      " 文件无效，有效的文件名为:.xlsx, .pdf, .docx"), sm)
  else if !(strToLower (pathSuffix absPath1) == strToLower (pathSuffix absPath2)) then
    (mkDiffError ("错误: " ++ relFile1 ++ "与" ++ relFile2 ++
      " 扩展名不一致，需使用扩展名一致的文件进行比较。"), sm)
  else
    let resultHeader := "比较文件:\n  1. " ++ relFile1 ++ "\n  2. " ++ relFile2 ++ "\n"
    let stage :=
      if documentType = "概算表" then
        diffBudgetBranch env relFile1 relFile2 sheetName allSheet resultHeader absPath1 absPath2
      else if documentType = "报告（说明书）" || documentType = "材料清册" then
        diffTextBranch env relFile1 relFile2 resultHeader
      else
        DiffStage.early
          (mkDiffError ("内部错误: 无法处理的文档类型 " ++ documentType ++ "，检查调用参数。"))
    match stage with
    | DiffStage.early resp => (resp, sm)
    | DiffStage.success result successHint =>
        let resp : DiffFileResponse :=
          { content := result
            token1 := some tok1
            token2 := some tok2
            filePath1 := some relFile1
            filePath2 := some relFile2
            downloadUrl1 := some (downloadUrl tok1 relFile1)
            downloadUrl2 := some (downloadUrl tok2 relFile2)
            hint := successHint }
        match updateSessionManagerCall sm user [(tok1, absPath1), (tok2, absPath2)] now validity with
        | Except.ok sm2 => (resp, sm2)
        | Except.error e =>
            let headerForError :=
              resultHeader ++
                (if !(sheetName == "") && !allSheet then "Sheet名称: " ++ sheetName ++ "\n" else "") ++
                dashes30 ++ "\n"
            (mkDiffError (headerForError ++ "异常：比较文件时发生未知错误: " ++
              pyErrText e ++ "，检查日志。"), sm)

/-! ## Concrete example states used by the closed theorems and witnesses -/

/-- An opened-file entry whose expiry (100) is already in the past at the
query time 200 considered in the C1 scenario. -/
def c1Entry : FileEntry :=
  { expireAt := 100, openedByLlm := true, openedByUser := true
    docType := DocType.PROJECT, filePath := "2024/P/送审/R.pdf", token := "tok1" }

/-- The session of the C1 scenario, holding only the expired entry. -/
def c1User : UserSessionData :=
  { freshSession "alice" "S1" "1.1.1.1" 0 with workingFiles := [c1Entry] }

/-- Session-manager state for the diff scenario: alice is logged in. -/
def c2Mgr : SessionStateManager :=
  { userSessions := [("alice", freshSession "alice" "S1" "1.1.1.1" 0)]
    inactivityTimeout := 3600 }

/-- Environment for the diff scenario: two existing docx files whose parsed
texts differ in one line. -/
def c2Env : DiffEnv :=
  { fileExists := fun p =>
      p == "/data/projects/2024/P/送审/r.docx" || p == "/data/projects/2024/P/收口/r.docx"
    parseFile := fun p =>
      if p == "/data/projects/2024/P/送审/r.docx" then "第一行\n第二行" else "第一行\n第二行改"
    unifiedDiff := fun l1 l2 =>
      if l1 == l2 then [] else ["--- a", "+++ b", "@@ -1,2 +1,2 @@", " 第一行", "-第二行", "+第二行改"]
    sheetNames := fun _ => []
    parseSheet := fun _ _ => [] }

/-- The C2 scenario call, shared by the conjuncts of its theorem. -/
def c2Run : DiffFileResponse × Option SessionStateManager :=
  diffProjectFile c2Env (some c2Mgr) "alice" "2024/P/送审/r.docx" "2024/P/收口/r.docx"
    "报告（说明书）" "" false "t1" "t2" 100 900

/-- A projects-tree file and a spec-tree file sharing the relative path
2024/b.txt, for the C3 scenario. -/
def c3FileProj : DiskFile :=
  { absPath := "/data/projects/2024/b.txt", isFile := true, size := 10, mtime := 5, md5 := "md5a" }

def c3FileSpec : DiskFile :=
  { absPath := "/data/specs/2024/b.txt", isFile := true, size := 11, mtime := 6, md5 := "md5b" }

/-- The table after upserting both C3 files into an empty store. -/
def c3Table : List IndexedRow :=
  upsertDocument (upsertDocument [] c3FileProj DocumentType.projectDoc 7)
    c3FileSpec DocumentType.specDoc 8

/-- An escaping relative path and a tiny filesystem for the C4/C10
scenarios. -/
def c4Root : List String := ["data", "proj"]

def c4EscRel : PurePath := { absolute := false, comps := ["..", "..", "etc", "passwd"] }

def c4AbsRel : PurePath := { absolute := true, comps := ["etc", "passwd"] }

def c4Fs : FsState := { files := [["data", "proj", "a.txt"]], dirs := [["data", "proj"]] }

/-- Session-manager state for the C5 witness: alice logged in at time 0 with
a 3600-second idle window. -/
def c5Mgr : SessionStateManager :=
  { userSessions := [("alice", freshSession "alice" "S1" "1.1.1.1" 0)]
    inactivityTimeout := 3600 }

/-- Trivial stream environment for the C6 scenario. -/
def c6Env : StreamEnv :=
  { upstream := fun _ => Except.ok [], execTool := fun _ => "" }

/-- Fresh proxy state for the C6 scenario. -/
def c6St : ProxyState :=
  { history := [], events := [], stopEvent := false, toolCallId := 0, upstreamCallDepths := [] }

/-- A png and a jpg file under the spec root, for the C7 scenario. -/
def c7PngFile : DiskFile :=
  { absPath := "/data/specs/图集/photo.png", isFile := true, size := 4, mtime := 1, md5 := "md5p" }

def c7JpgFile : DiskFile :=
  { absPath := "/data/specs/图集/photo.jpg", isFile := true, size := 4, mtime := 1, md5 := "md5j" }

/-- A management-typed opened file for the C8 witness. -/
def c8Entry : FileEntry :=
  { expireAt := 100, openedByLlm := true, openedByUser := true
    docType := DocType.MANAGEMENT, filePath := "制度/规定.pdf", token := "m1" }

def c8User : UserSessionData :=
  { freshSession "bob" "S9" "3.3.3.3" 0 with workingFiles := [c8Entry] }

/-- A row for the C9 witness table. -/
def c9Row : IndexedRow :=
  { relativePath := "2024/b.txt", fileName := "b.txt", ext := "txt", size := 10
    modifiedTime := 5, md5Hash := "md5a", lastScanned := 7
    documentType := DocumentType.projectDoc
    metadata := Metadata.project { year := some "2024", projectName := some "b.txt" } }

/-! ## Helper lemmas -/

/-- Looking a key up after dict.pop yields nothing. -/
theorem dictGet_dictPop {α : Type} (l : List (String × α)) (k : String) :
    dictGet (dictPop l k) k = none := by
  induction l with
  | nil => rfl
  | cons p rest ih =>
      by_cases h : p.1 == k
      · simp [dictPop, dictGet, h]
      · simp [dictPop, dictGet, List.find?, h]

/-- After upsertRow, exactly one row carries the written relative path. -/
theorem countKey_upsertRow_self (tbl : List IndexedRow) (r : IndexedRow) :
    countKey (upsertRow tbl r) r.relativePath = 1 := by
  induction tbl with
  | nil => simp [countKey, upsertRow]
  | cons q rest ih =>
      by_cases h : q.relativePath == r.relativePath
      · simp [upsertRow, countKey, h]
      · simp [upsertRow, countKey, h]

/-- upsertRow leaves the row count of every other relative path unchanged. -/
theorem countKey_upsertRow_other (tbl : List IndexedRow) (r : IndexedRow) (k : String)
    (h : k ≠ r.relativePath) : countKey (upsertRow tbl r) k = countKey tbl k := by
  have hr : (r.relativePath == k) = false := by
    simp [BEq.beq]
    exact fun hh => h hh.symm
  induction tbl with
  | nil => simp [countKey, upsertRow, hr]
  | cons q rest ih =>
      by_cases hq : q.relativePath == r.relativePath
      · have hqk : (q.relativePath == k) = false := by
          have : q.relativePath = r.relativePath := by
            simpa [BEq.beq] using hq
          simp [BEq.beq, this]
          exact fun hh => h hh.symm
        simpa [upsertRow, countKey, hq, hqk] using ih
      · by_cases hqk : q.relativePath == k
        · simpa [upsertRow, countKey, hq, hqk] using ih
        · simpa [upsertRow, countKey, hq, hqk] using ih

/-- getSafePath rejects exactly the inputs pathEscapesB flags. -/
theorem getSafePath_error_of_escapes (root : List String) (rel : PurePath)
    (h : pathEscapesB root rel = true) :
    getSafePath root rel = Except.error FsError.pathEscape := by
  unfold pathEscapesB at h
  unfold getSafePath
  by_cases ha : rel.absolute
  · simp [ha]
  · simp [ha] at h
    simp [ha, h]

/-- lookupUserDownloadInfo only ever resolves against the projects or the
spec root. -/
theorem lookupUser_absolute_path (ud : UserSessionData) (t : String)
    (info : DownloadableFileInfo)
    (h : lookupUserDownloadInfo ud t = some (some info)) :
    info.absolutePath = osJoin projectsRootDir info.path ∨
      info.absolutePath = osJoin specRootDir info.path := by
  unfold lookupUserDownloadInfo at h
  cases hf : findTokenEntry ud.workingFiles t with
  | some e =>
      rw [hf] at h
      have he : resolveWorkingFileEntry e = some info := by
        simpa using h
      unfold resolveWorkingFileEntry at he
      cases hd : e.docType with
      | PROJECT =>
          rw [hd] at he
          cases he
          simp
      | STANDARD =>
          rw [hd] at he
          cases he
          simp
      | MANAGEMENT =>
          rw [hd] at he
          cases he
  | none =>
      rw [hf] at h
      cases hw : ud.workingDirectory with
      | some d =>
          rw [hw] at h
          simp only [] at h
          cases hg : findTokenEntry d.files t with
          | some e =>
              rw [hg] at h
              simp only [] at h
              cases h
              simp
          | none =>
              rw [hg] at h
              simp only [] at h
              cases h
      | none =>
          rw [hw] at h
          simp only [] at h
          cases h

/-- processChunks never touches the ghost record of upstream call depths. -/
theorem processChunks_upstreamCallDepths (chunks : List StreamChunk)
    (st : ProxyState) (fullContent : String) (acc : List (Nat × ToolCallAcc)) :
    (processChunks st fullContent acc chunks).1.upstreamCallDepths =
      st.upstreamCallDepths := by
  induction chunks generalizing st fullContent acc with
  | nil => rfl
  | cons ch rest ih =>
      unfold processChunks
      by_cases hs : st.stopEvent
      · simp [hs]
      · simp only [hs, Bool.false_eq_true, if_false]
        repeat' split
        all_goals simp [ih]

/-- The ghost call-depth trace of handleStream only grows by depths bounded
by max_depth. -/
theorem handleStream_callDepths_bounded (fuel : Nat) :
    ∀ (env : StreamEnv) (st : ProxyState) (messages : List ChatMsg)
      (depth maxDepth : Nat), fuel = maxDepth + 1 - depth →
      ∀ d ∈ (handleStream env st messages depth maxDepth).1.upstreamCallDepths,
        d ∈ st.upstreamCallDepths ∨ d ≤ maxDepth := by
  induction fuel with
  | zero =>
      intro env st messages depth maxDepth hfuel d hd
      have hlt : maxDepth < depth := by omega
      rw [handleStream] at hd
      simp [hlt] at hd
      exact Or.inl hd
  | succ n ih =>
      intro env st messages depth maxDepth hfuel d hd
      by_cases hlt : maxDepth < depth
      · rw [handleStream] at hd
        simp [hlt] at hd
        exact Or.inl hd
      · rw [handleStream] at hd
        simp only [dif_neg hlt] at hd
        have hmem0 : ∀ x, x ∈ st.upstreamCallDepths ++ [depth] →
            x ∈ st.upstreamCallDepths ∨ x ≤ maxDepth := by
          intro x hx
          simp at hx
          rcases hx with hx | hx
          · exact Or.inl hx
          · subst hx
            exact Or.inr (by omega)
        cases hup : env.upstream messages with
        | error e =>
            rw [hup] at hd
            simp at hd
            exact hmem0 d (by simp [hd])
        | ok chunks =>
            rw [hup] at hd
            simp only [] at hd
            rcases hpc : processChunks
                { st with upstreamCallDepths := st.upstreamCallDepths ++ [depth] } "" [] chunks
              with ⟨st1, full, acc, ex⟩
            have hst1 : st1.upstreamCallDepths = st.upstreamCallDepths ++ [depth] := by
              have hq := processChunks_upstreamCallDepths chunks
                { st with upstreamCallDepths := st.upstreamCallDepths ++ [depth] } "" []
              rw [hpc] at hq
              exact hq
            rw [hpc] at hd
            cases ex with
            | stopSignal =>
                simp at hd
                rw [hst1] at hd
                exact hmem0 d hd
            | stopFinish =>
                simp at hd
                rw [hst1] at hd
                exact hmem0 d hd
            | exhausted =>
                simp at hd
                rw [hst1] at hd
                exact hmem0 d hd
            | toolCallsFinish =>
                simp only at hd
                have hfuel2 : n = maxDepth + 1 - (depth + 1) := by omega
                have happ := ih env _ _ (depth + 1) maxDepth hfuel2 d hd
                rcases happ with hmem | hle
                · have hmem1 : d ∈ st1.upstreamCallDepths := by
                    simpa using hmem
                  rw [hst1] at hmem1
                  exact hmem0 d hmem1
                · exact Or.inr hle

/-! ## Claim theorems -/

/-- Claim C1 (code bug).  The spec and the resolver docstring both promise
that a token whose expiry has passed is not returned, yet
get_downloadable_file_info never compares expire_at with the clock: the
entry of c1User expired at time 100 and is still returned in full at query
time 200 (the second conjunct places the query strictly after expiry). -/
theorem c1_resolver_returns_expired_entry :
    getDownloadableFileInfo [("alice", c1User)] "tok1" =
      some { token := "tok1", path := "2024/P/送审/R.pdf", filename := "R.pdf"
             absolutePath := "/data/projects/2024/P/送审/R.pdf", expiresAt := 100 } ∧
    ((100 : ℚ) < 200) := by
  exact ⟨by decide, by norm_num⟩

/-- Claim C2 (code bug).  On a well-formed two-docx diff request by a
logged-in user, diff_project_file builds the success response but then calls
update_opened_file through _update_session_manager with five positional
arguments against the four-parameter refactored signature; the TypeError is
swallowed by the catch-all handler, so the tool returns the error-shaped
response without download tokens and registers nothing (the session state is
unchanged).  The last conjunct isolates the failing call. -/
theorem c2_diff_success_path_type_error :
    c2Run.1.content = "N/A" ∧
    c2Run.1.token1 = none ∧
    c2Run.1.downloadUrl1 = none ∧
    c2Run.2 = some c2Mgr ∧
    updateSessionManagerCall (some c2Mgr) "alice"
        [("t1", "/data/projects/2024/P/送审/r.docx"),
          ("t2", "/data/projects/2024/P/收口/r.docx")] 100 900 =
      Except.error PyError.typeError := by
  refine ⟨by decide, by decide, by decide, by decide, rfl⟩

/-- Claim C3 counterexample.  Upserting a projects-tree file and a spec-tree
file that share the relative path 2024/b.txt leaves a single row (the later
docType wins) instead of the two distinct rows the claim requires. -/
theorem c3_same_relpath_two_roots_single_row :
    c3Table.length = 1 ∧
    c3Table.map (fun r => r.documentType) = [DocumentType.specDoc] ∧
    countKey c3Table "2024/b.txt" = 1 := by
  refine ⟨?_, ?_, ?_⟩ <;> decide

/-- Claim C3 (amended).  The store holds exactly one row per relativePath
alone: an upsert replaces any existing row with the same relative path, even
across docTypes, leaves other keys untouched, and any upsert sequence from
an empty store keeps every relative path at most once. -/
theorem c3_store_keys_on_relative_path_only :
    (∀ (tbl : List IndexedRow) (r : IndexedRow),
        countKey (upsertRow tbl r) r.relativePath = 1) ∧
    (∀ (tbl : List IndexedRow) (r : IndexedRow) (k : String), k ≠ r.relativePath →
        countKey (upsertRow tbl r) k = countKey tbl k) ∧
    (∀ (ops : List (DiskFile × DocumentType × ℚ)) (k : String),
        countKey (ops.foldl (fun tbl op => upsertDocument tbl op.1 op.2.1 op.2.2) []) k ≤ 1) := by
  have hstep : ∀ (tbl : List IndexedRow) (f : DiskFile) (dt : DocumentType) (now : ℚ)
      (k : String), countKey tbl k ≤ 1 → countKey (upsertDocument tbl f dt now) k ≤ 1 := by
    intro tbl f dt now k hk
    unfold upsertDocument
    cases hg : getFileInfo f dt now with
    | none => exact hk
    | some r =>
        by_cases hkr : k = r.relativePath
        · rw [hkr, countKey_upsertRow_self]
        · rw [countKey_upsertRow_other tbl r k hkr]
          exact hk
  refine ⟨countKey_upsertRow_self, countKey_upsertRow_other, ?_⟩
  have hfold : ∀ (ops : List (DiskFile × DocumentType × ℚ)) (tbl : List IndexedRow)
      (k : String), countKey tbl k ≤ 1 →
      countKey (ops.foldl (fun tbl op => upsertDocument tbl op.1 op.2.1 op.2.2) tbl) k ≤ 1 := by
    intro ops
    induction ops with
    | nil => intro tbl k hk; exact hk
    | cons op rest ih =>
        intro tbl k hk
        exact ih _ k (hstep tbl op.1 op.2.1 op.2.2 k hk)
  intro ops k
  exact hfold ops [] k (by simp [countKey])

/-- Claim C3 witness: the amended theorem applied to concrete inputs. -/
theorem c3_witness :
    countKey (upsertRow [] c9Row) "zzz" = countKey [] "zzz" ∧
    countKey (upsertRow [] c9Row) c9Row.relativePath = 1 := by
  constructor
  · exact c3_store_keys_on_relative_path_only.2.1 [] c9Row "zzz" (by decide)
  · exact c3_store_keys_on_relative_path_only.1 [] c9Row

/-- Claim C4 counterexample.  The existence probes are FileService
operations, and on an escaping relative path they complete normally with
False while _get_safe_path flags the escape, refuting that every operation
fails with PathEscape. -/
theorem c4_probe_completes_on_escaping_path :
    pathEscapesB c4Root c4EscRel = true ∧
    getSafePath c4Root c4EscRel = Except.error FsError.pathEscape ∧
    fileExistsAsync c4Fs c4Root c4EscRel = false ∧
    directoryExistsAsync c4Fs c4Root c4EscRel = false := by
  refine ⟨by decide, rfl, by decide, by decide⟩

/-- Claim C4 (amended).  Every modelled FileService operation other than the
existence probes fails with PathEscape on an absolute or root-escaping path
and leaves the filesystem untouched; the probes swallow the error and return
false. -/
theorem c4_nonprobe_ops_reject_escaping_paths (fs : FsState) (root : List String)
    (rel : PurePath) (filename : String) (h : pathEscapesB root rel = true) :
    saveContentAsync fs root rel = (Except.error FsError.pathEscape, fs) ∧
    removeDirectoryAsync fs root rel = (Except.error FsError.pathEscape, fs) ∧
    createDirectoryAsync fs root rel = (Except.error FsError.pathEscape, fs) ∧
    createPlaceholderFileAsync fs root rel filename = (Except.error FsError.pathEscape, fs) ∧
    readFileBytesSync fs root rel = (Except.error FsError.pathEscape, fs) ∧
    fileExistsAsync fs root rel = false ∧
    directoryExistsAsync fs root rel = false := by
  have hs := getSafePath_error_of_escapes root rel h
  refine ⟨?_, ?_, ?_, ?_, ?_, ?_, ?_⟩ <;>
    simp [saveContentAsync, removeDirectoryAsync, createDirectoryAsync,
      createPlaceholderFileAsync, readFileBytesSync, fileExistsAsync,
      directoryExistsAsync, hs]

/-- Claim C4 witness: the amended theorem applied to an absolute input. -/
theorem c4_witness :
    saveContentAsync c4Fs c4Root c4AbsRel = (Except.error FsError.pathEscape, c4Fs) ∧
    readFileBytesSync c4Fs c4Root c4AbsRel = (Except.error FsError.pathEscape, c4Fs) := by
  have happ := c4_nonprobe_ops_reject_escaping_paths c4Fs c4Root c4AbsRel "placeholder.txt"
    (by decide)
  exact ⟨happ.1, happ.2.2.2.2.1⟩

/-- Claim C5 (confirmed).  attempt_login returns false exactly when an
existing session of the username still has recent HTTP activity; when it
returns true the prior session is replaced by a fresh one; a rejection
leaves the state untouched; and after logout_user an immediate re-login of
the same username always succeeds. -/
theorem c5_exclusive_login_iff (mgr : SessionStateManager)
    (username ip sid : String) (now : ℚ) :
    ((attemptLogin mgr username ip sid now).1 = false ↔
      ∃ ud, dictGet mgr.userSessions username = some ud ∧
        now - ud.lastActivityTime < mgr.inactivityTimeout) ∧
    ((attemptLogin mgr username ip sid now).1 = true →
      (attemptLogin mgr username ip sid now).2.userSessions =
        dictSet mgr.userSessions username (freshSession username sid ip now)) ∧
    ((attemptLogin mgr username ip sid now).1 = false →
      (attemptLogin mgr username ip sid now).2 = mgr) ∧
    (∀ (ip2 sid2 : String) (now2 : ℚ),
      (attemptLogin (logoutUser mgr username) username ip2 sid2 now2).1 = true) := by
  refine ⟨?_, ?_, ?_, ?_⟩
  · cases hg : dictGet mgr.userSessions username with
    | none => simp [attemptLogin, hg]
    | some ud =>
        by_cases hc : now - ud.lastActivityTime < mgr.inactivityTimeout
        · simp [attemptLogin, hg, hc]
        · simp [attemptLogin, hg, hc]
  · cases hg : dictGet mgr.userSessions username with
    | none => intro _; simp [attemptLogin, hg]
    | some ud =>
        by_cases hc : now - ud.lastActivityTime < mgr.inactivityTimeout
        · simp [attemptLogin, hg, hc]
        · intro _; simp [attemptLogin, hg, hc]
  · cases hg : dictGet mgr.userSessions username with
    | none => simp [attemptLogin, hg]
    | some ud =>
        by_cases hc : now - ud.lastActivityTime < mgr.inactivityTimeout
        · intro _; simp [attemptLogin, hg, hc]
        · simp [attemptLogin, hg, hc]
  · intro ip2 sid2 now2
    simp [attemptLogin, logoutUser, dictGet_dictPop]

/-- Claim C5 witness: the login-exclusivity scenario at concrete inputs. -/
theorem c5_witness :
    (attemptLogin c5Mgr "alice" "2.2.2.2" "S2" 10).1 = false ∧
    (attemptLogin (logoutUser c5Mgr "alice") "alice" "2.2.2.2" "S3" 11).1 = true := by
  constructor
  · exact (c5_exclusive_login_iff c5Mgr "alice" "2.2.2.2" "S2" 10).1.mpr
      ⟨freshSession "alice" "S1" "1.1.1.1" 0, by decide,
        by simp only [freshSession, c5Mgr]; norm_num⟩
  · exact (c5_exclusive_login_iff c5Mgr "alice" "9.9.9.9" "S9" 0).2.2.2 "2.2.2.2" "S3" 11

/-- Claim C6 counterexample.  At depth 6 with max_depth 5 the handler stops
and returns the error string to its caller, but pushes no event at all to
the client (events stays empty), refuting that a single error message is
emitted to the client. -/
theorem c6_no_client_error_event_on_depth_overflow :
    handleStream c6Env c6St [] 6 5 = (c6St, some "[系统错误] 工具调用嵌套太深") ∧
    (handleStream c6Env c6St [] 6 5).1.events = [] ∧
    (handleStream c6Env c6St [] 6 5).1.upstreamCallDepths = [] := by
  have h : handleStream c6Env c6St [] 6 5 = (c6St, some "[系统错误] 工具调用嵌套太深") := by
    unfold handleStream
    simp
  refine ⟨h, ?_, ?_⟩ <;> (rw [h]; rfl)

/-- Claim C6 (amended).  When depth exceeds max_depth the handler returns
the error string without opening an upstream completion, pushing no client
event and leaving the state untouched; and along any run, every upstream
chat-completions call happens at a depth bounded by max_depth. -/
theorem c6_depth_guard_no_upstream (env : StreamEnv) (st : ProxyState)
    (messages : List ChatMsg) (depth maxDepth : Nat) :
    (maxDepth < depth →
      handleStream env st messages depth maxDepth =
        (st, some "[系统错误] 工具调用嵌套太深")) ∧
    (∀ d ∈ (handleStream env st messages depth maxDepth).1.upstreamCallDepths,
      d ∈ st.upstreamCallDepths ∨ d ≤ maxDepth) := by
  constructor
  · intro hlt
    rw [handleStream]
    simp [hlt]
  · exact handleStream_callDepths_bounded (maxDepth + 1 - depth) env st messages
      depth maxDepth rfl

/-- Claim C6 witness: the amended theorem applied at depth 7. -/
theorem c6_witness :
    handleStream c6Env c6St [] 7 5 = (c6St, some "[系统错误] 工具调用嵌套太深") := by
  exact (c6_depth_guard_no_upstream c6Env c6St [] 7 5).1 (by norm_num)

/-- Claim C7 (code bug).  The spec-tree indexing filter lists png without its
leading dot, so a file ending in .png is skipped by _get_file_info (while a
.jpg file passes); the claim and the spec require png files to be
recorded. -/
theorem c7_png_file_skipped_by_spec_filter :
    getFileInfo c7PngFile DocumentType.specDoc 50 = none ∧
    (getFileInfo c7JpgFile DocumentType.specDoc 50).isSome = true ∧
    specExtensions.contains ".png" = false ∧
    specExtensions.contains "png" = true ∧
    strToLower (pathSuffix c7PngFile.absPath) = ".png" := by
  refine ⟨?_, ?_, ?_, ?_, ?_⟩ <;> decide

/-- Claim C8 (confirmed).  A working_files hit whose doc_type is management
makes the resolver return None even for an unexpired token; every resolved
info has its absolute path rooted at the projects or the spec root; and a
token found through working_directory.files always resolves against the
projects root. -/
theorem c8_management_entries_never_resolved
    (u : String) (ud : UserSessionData) (tok : String) (e : FileEntry) (q : ℚ)
    (hfind : findTokenEntry ud.workingFiles tok = some e)
    (hmgmt : e.docType = DocType.MANAGEMENT)
    (_hunexpired : q < e.expireAt) :
    getDownloadableFileInfo [(u, ud)] tok = none ∧
    (∀ (sessions : List (String × UserSessionData)) (t : String)
        (info : DownloadableFileInfo),
        getDownloadableFileInfo sessions t = some info →
          info.absolutePath = osJoin projectsRootDir info.path ∨
          info.absolutePath = osJoin specRootDir info.path) ∧
    (∀ (u2 : String) (ud2 : UserSessionData) (rest : List (String × UserSessionData))
        (t : String) (d : DirEntry) (e2 : FileEntry),
        findTokenEntry ud2.workingFiles t = none →
        ud2.workingDirectory = some d →
        findTokenEntry d.files t = some e2 →
        getDownloadableFileInfo ((u2, ud2) :: rest) t =
          some { token := e2.token, path := e2.filePath
                 filename := basename e2.filePath
                 absolutePath := osJoin projectsRootDir e2.filePath
                 expiresAt := e2.expireAt }) := by
  refine ⟨?_, ?_, ?_⟩
  · have h1 : lookupUserDownloadInfo ud tok = some none := by
      unfold lookupUserDownloadInfo
      rw [hfind]
      simp only []
      unfold resolveWorkingFileEntry
      rw [hmgmt]
    simp [getDownloadableFileInfo, h1]
  · intro sessions
    induction sessions with
    | nil =>
        intro t info h
        simp [getDownloadableFileInfo] at h
    | cons p rest ih =>
        intro t info h
        obtain ⟨uname, ud2⟩ := p
        rw [getDownloadableFileInfo] at h
        cases hl : lookupUserDownloadInfo ud2 t with
        | some r =>
            rw [hl] at h
            simp only [] at h
            subst h
            exact lookupUser_absolute_path ud2 t info hl
        | none =>
            rw [hl] at h
            simp only [] at h
            exact ih t info h
  · intro u2 ud2 rest t d e2 hnone hdir hfind2
    have h1 : lookupUserDownloadInfo ud2 t =
        some (some { token := e2.token, path := e2.filePath
                     filename := basename e2.filePath
                     absolutePath := osJoin projectsRootDir e2.filePath
                     expiresAt := e2.expireAt }) := by
      unfold lookupUserDownloadInfo
      rw [hnone, hdir]
      simp only []
      rw [hfind2]
    rw [getDownloadableFileInfo, h1]

/-- Claim C8 witness: a management-typed unexpired token resolves to None. -/
theorem c8_witness :
    getDownloadableFileInfo [("bob", c8User)] "m1" = none := by
  exact (c8_management_entries_never_resolved "bob" c8User "m1" c8Entry 50
    (by decide) rfl (by simp only [c8Entry]; norm_num)).1

/-- Claim C9 (confirmed).  find_documents with no filters, or with every
filter value null, returns the empty list, never the unfiltered table. -/
theorem c9_all_null_filters_empty_result (tbl : List IndexedRow)
    (filters : List (QueryKey × Option String))
    (h : ∀ kv ∈ filters, kv.2 = none) :
    findDocuments tbl filters = [] := by
  have hparts : ∀ (fl : List (QueryKey × Option String)), (∀ kv ∈ fl, kv.2 = none) →
      fl.filterMap (fun kv => kv.2.map (fun v => ((kv.1 : QueryKey), v))) = [] := by
    intro fl
    induction fl with
    | nil => intro _; rfl
    | cons kv rest ih =>
        intro hall
        have hkv := hall kv (by simp)
        simp only [List.filterMap_cons, hkv, Option.map_none]
        exact ih (fun kv2 hm => hall kv2 (by simp [hm]))
  simp [findDocuments, hparts filters h]

/-- Claim C9 witness: an all-null filter set over a nonempty table. -/
theorem c9_witness :
    findDocuments [c9Row] [(QueryKey.year, none), (QueryKey.projectName, none)] = [] := by
  exact c9_all_null_filters_empty_result [c9Row]
    [(QueryKey.year, none), (QueryKey.projectName, none)] (by decide)

/-- Claim C10 (confirmed).  file_exists_async and directory_exists_async
never raise: on an absolute or root-escaping input they catch the
_get_safe_path error and return false, unlike the other operations, of
which read_file_bytes_sync is shown failing with PathEscape on the same
input. -/
theorem c10_existence_probes_never_raise (fs : FsState) (root : List String)
    (rel : PurePath) (h : pathEscapesB root rel = true) :
    fileExistsAsync fs root rel = false ∧
    directoryExistsAsync fs root rel = false ∧
    (readFileBytesSync fs root rel).1 = Except.error FsError.pathEscape := by
  have hs := getSafePath_error_of_escapes root rel h
  refine ⟨?_, ?_, ?_⟩ <;> simp [fileExistsAsync, directoryExistsAsync, readFileBytesSync, hs]

/-- Claim C10 witness: the probes on an absolute input. -/
theorem c10_witness :
    fileExistsAsync c4Fs c4Root c4AbsRel = false ∧
    directoryExistsAsync c4Fs c4Root c4AbsRel = false := by
  have happ := c10_existence_probes_never_raise c4Fs c4Root c4AbsRel (by decide)
  exact ⟨happ.1, happ.2.1⟩

end PDA
